import Mathlib

/-!
Verification development for the dlna_server repository.

The Python modules DLNA/ssdp.py, DLNA/server.py and DLNA/plugin.py are
shallowly embedded below.  Pure computations become Lean functions, the
mutable object state of each class becomes an explicit state record, and
side effects (datagrams handed to a socket, thread wake-ups, socket
teardown, bus subscriptions) become explicit event lists.  Python
exceptions that can escape a method are modelled with Except over the
PyError type; exceptions the source catches are handled exactly where the
source catches them.  IPv4 dotted-quad strings are modelled as quadruples
of naturals, and the random number generator is an explicit oracle
argument giving the successive draws.
-/

/-- The Python exceptions that matter for the embedded code paths. -/
inductive PyError where
  | keyError
  | indexError
  | valueError
  | portendTimeout
  | recursionError
deriving DecidableEq, Repr

/-! ### Python dict, list and str primitives

Python dicts are modelled as association lists in insertion order:
assignment to an existing key keeps its position, assignment to a fresh
key appends, deletion of a missing key raises KeyError. -/

/-- dict assignment d[k] = v. -/
def alSet {α : Type} (m : List (String × α)) (k : String) (v : α) : List (String × α) :=
  if m.any (fun p => p.1 == k) then m.map (fun p => if p.1 == k then (k, v) else p)
  else m ++ [(k, v)]

/-- dict lookup d.get(k). -/
def alGet? {α : Type} (m : List (String × α)) (k : String) : Option α :=
  (m.find? (fun p => p.1 == k)).map Prod.snd

/-- dict lookup with default, d.get(k, dflt). -/
def alGetD {α : Type} (m : List (String × α)) (k : String) (dflt : α) : α :=
  (alGet? m k).getD dflt

/-- del d[k]: removes the entry for k, KeyError when k is absent. -/
def alDel {α : Type} (m : List (String × α)) (k : String) : Except PyError (List (String × α)) :=
  if m.any (fun p => p.1 == k) then .ok (m.filter (fun p => p.1 != k))
  else .error .keyError

/-- Build a dict from a pair list, as dict(pairs): later pairs override. -/
def pyDict {α : Type} (ps : List (String × α)) : List (String × α) :=
  ps.foldl (fun m p => alSet m p.1 p.2) []

/-- list indexing l[i]: IndexError when out of range. -/
def pyIndex {α : Type} (l : List α) (i : Nat) : Except PyError α :=
  match l.get? i with
  | some v => .ok v
  | none => .error .indexError

/-- Splitting a character list on each non-overlapping occurrence of sep,
left to right, with a fuel argument to make the recursion structural.
Fuel at least the length of the input is always enough. -/
def splitChars (sep : List Char) : Nat → List Char → List (List Char)
  | _, [] => [[]]
  | 0, l => [l]
  | fuel + 1, c :: rest =>
    if sep.isPrefixOf (c :: rest) then
      [] :: splitChars sep fuel ((c :: rest).drop sep.length)
    else
      match splitChars sep fuel rest with
      | [] => [[c]]
      | h :: t => (c :: h) :: t

/-- Python s.split(sep) for a non-empty separator. -/
def pySplitOn (s sep : String) : List String :=
  (splitChars sep.data s.data.length s.data).map (fun l => ⟨l⟩)

/-- Python s.replace(old, new, 1): replace the first occurrence only. -/
def pyReplaceFirst (s old new : String) : String :=
  match pySplitOn s old with
  | [] => s
  | [x] => x
  | x :: rest => x ++ new ++ String.intercalate old rest

/-- Python s.lower() restricted to ASCII, via Char.toLower. -/
def pyLower (s : String) : String := ⟨s.data.map Char.toLower⟩

/-- Digits to the natural number they denote, most significant first. -/
def digitsToNat (ds : List Char) : Nat :=
  ds.foldl (fun n c => 10 * n + (c.toNat - 48)) 0

/-- Python int(s): optional surrounding spaces, optional sign, decimal
digits; anything else raises ValueError. -/
def pyInt (s : String) : Except PyError Int :=
  let cs := ((s.data.dropWhile (fun c => c == ' ')).reverse.dropWhile
    (fun c => c == ' ')).reverse
  match cs with
  | '-' :: ds =>
    if !ds.isEmpty && ds.all Char.isDigit then .ok (-(Int.ofNat (digitsToNat ds)))
    else .error .valueError
  | '+' :: ds =>
    if !ds.isEmpty && ds.all Char.isDigit then .ok (Int.ofNat (digitsToNat ds))
    else .error .valueError
  | ds =>
    if !ds.isEmpty && ds.all Char.isDigit then .ok (Int.ofNat (digitsToNat ds))
    else .error .valueError

/-- Python random.randint(lo, hi): a value in [lo, hi] chosen by the draw
oracle; raises ValueError when the range is empty (hi < lo). -/
def pyRandint (lo hi : Int) (draw : Nat) : Except PyError Int :=
  if hi < lo then .error .valueError
  else .ok (lo + Int.ofNat (draw % (hi - lo + 1).toNat))

/-- Python s.format(arg): each positional placeholder is replaced by arg
(the repository's templates contain exactly one placeholder). -/
def pyFormat (s arg : String) : String :=
  String.intercalate arg (pySplitOn s "\x7b\x7d")

/-- CRLF line join, as in the Python sources' joining of response lines. -/
def crlfJoin : List String → String
  | [] => ""
  | [x] => x
  | x :: rest => x ++ "\r\n" ++ crlfJoin rest

/-- An IPv4 dotted quad a.b.c.d. -/
structure IPv4 where
  a : Nat
  b : Nat
  c : Nat
  d : Nat
deriving DecidableEq, Repr

/-- Render a quadruple back to the dotted string form. -/
def ipv4Str (ip : IPv4) : String :=
  toString ip.a ++ "." ++ toString ip.b ++ "." ++ toString ip.c ++ "." ++ toString ip.d

namespace SSDP

/-- One advertisement record, as built by SSDPServer.register: the dict
self.known[usn] with keys USN, LOCATION, ST, EXT, SERVER, CACHE-CONTROL
in that insertion order. -/
structure Record where
  usn : String
  location : String
  st : String
  ext : String
  server : String
  cache_control : String
deriving DecidableEq, Repr

/-- The observable actions of the engine.  sockSendTo is a datagram sent
on the shared receive socket (self.sock.sendto); sendIt is one call to
SSDPServer.send_it, which fans the given response out on every
per-interface send socket; sleep would be a time suspension (the engine
never performs one); wake is the zero-length self-addressed datagram sent
by stop; dropMembership and closeSock are the teardown of the receive
socket. -/
inductive Ev where
  | sockSendTo (data : String) (dest : IPv4 × Nat)
  | sendIt (response : String) (dest : IPv4 × Nat)
  | sleep (seconds : Int)
  | wake
  | dropMembership (ip : IPv4)
  | closeSock
deriving DecidableEq, Repr

/-- Whether an event is a time suspension. -/
def Ev.isSleep : Ev → Bool
  | .sleep _ => true
  | _ => false

/-- The multicast group address 239.255.255.250. -/
def ssdpAddr : IPv4 := ⟨239, 255, 255, 250⟩

/-- The SSDP port 1900. -/
def ssdpPort : Nat := 1900

/-- The multicast destination (SSDP_ADDR, SSDP_PORT). -/
def mcastDest : IPv4 × Nat := (ssdpAddr, ssdpPort)

/-- The mutable state of one SSDPServer instance: the registry known,
the interface list ip_list of (ip, netmask) pairs, the running flag, the
sending_byebye flag, and whether self.sock is currently an open socket. -/
structure State where
  known : List (String × Record)
  ip_list : List (IPv4 × IPv4)
  running : Bool
  sending_byebye : Bool
  hasSock : Bool
deriving DecidableEq, Repr

/-- SSDPServer.register: insert or overwrite the record under usn. -/
def register (s : State) (usn st location server cache_control : String) : State :=
  { s with known := alSet s.known usn ⟨usn, location, st, "", server, cache_control⟩ }

/-- SSDPServer.unregister: del self.known[usn]; KeyError when absent. -/
def unregister (s : State) (usn : String) : Except PyError State :=
  match alDel s.known usn with
  | .error e => .error e
  | .ok m => .ok { s with known := m }

/-- SSDPServer.is_known: usn in self.known. -/
def is_known (s : State) (usn : String) : Bool :=
  s.known.any (fun p => p.1 == usn)

/-- SSDPServer.get_subnet_ip: both the netmask and the address are split
into their four octets and combined octet-wise with bitwise and. -/
def get_subnet_ip (ip mask : IPv4) : IPv4 :=
  ⟨mask.a &&& ip.a, mask.b &&& ip.b, mask.c &&& ip.c, mask.d &&& ip.d⟩

/-- The for-loop over self.ip_list in discovery_request: the first
interface whose masked address equals the requester's address masked with
that same interface netmask (the loop breaks after the first hit). -/
def firstMatchingIface (ipl : List (IPv4 × IPv4)) (host : IPv4) : Option IPv4 :=
  match ipl with
  | [] => none
  | (ip, mask) :: rest =>
    if get_subnet_ip ip mask = get_subnet_ip host mask then some ip
    else firstMatchingIface rest host

/-- The condition i['ST'] == search_target or search_target == 'ssdp:all'. -/
def recordMatches (target : String) (r : Record) : Bool :=
  r.st == target || target == "ssdp:all"

/-- The response list built for one matching record in discovery_request:
status line, the six record fields in dict insertion order, the DATE
header, and the two empty strings appended before joining. -/
def responseLines (r : Record) (date : String) : List String :=
  ["HTTP/1.1 200 OK",
   "USN: " ++ r.usn,
   "LOCATION: " ++ r.location,
   "ST: " ++ r.st,
   "EXT: " ++ r.ext,
   "SERVER: " ++ r.server,
   "CACHE-CONTROL: " ++ r.cache_control,
   "DATE: " ++ date,
   "", ""]

/-- The datagram body actually handed to sendto for one record: the CRLF
join of the response lines with the chosen local ip substituted for the
placeholder, as in '\r\n'.join(response).format(ip). -/
def mkReplyData (r : Record) (ip : IPv4) (date : String) : String :=
  pyFormat (crlfJoin (responseLines r date)) (ipv4Str ip)

/-- The body of the for-loop over self.known.values() in
discovery_request.  For each record whose ST matches: the response is
built, and when the record's USN is truthy (non-empty) a random delay is
drawn (randint raises ValueError on a negative MX) and the reply is sent
to the requester through the first subnet-matching interface, if any.
The draw oracle is consumed one index per randint call. -/
def drLoop (ipl : List (IPv4 × IPv4)) (host : IPv4) (port : Nat) (date : String)
    (target : String) (mxv : Int) (rng : Nat → Nat) :
    List Record → Nat → Except PyError (List Ev)
  | [], _ => .ok []
  | r :: rest, k =>
    if recordMatches target r then
      if r.usn ≠ "" then
        match pyRandint 0 mxv (rng k) with
        | .error e => .error e
        | .ok _delay =>
          let evs := match firstMatchingIface ipl host with
            | some ip => [Ev.sockSendTo (mkReplyData r ip date) (host, port)]
            | none => []
          match drLoop ipl host port date target mxv rng rest (k + 1) with
          | .error e => .error e
          | .ok more => .ok (evs ++ more)
      else drLoop ipl host port date target mxv rng rest k
    else drLoop ipl host port date target mxv rng rest k

/-- SSDPServer.discovery_request.  headers is the already parsed header
dict (lower-cased keys); host, port the requester address; date the
formatted DATE header value.  ST defaults to 'ssdp:all', MX defaults to
'3' and is parsed with int(), whose ValueError escapes. -/
def discovery_request (s : State) (rng : Nat → Nat) (headers : List (String × String))
    (host : IPv4) (port : Nat) (date : String) : Except PyError (List Ev) :=
  let target := alGetD headers "st" "ssdp:all"
  match pyInt (alGetD headers "mx" "3") with
  | .error e => .error e
  | .ok mxv => drLoop s.ip_list host port date target mxv rng (s.known.map Prod.snd) 0

/-- An inbound datagram: either bytes that decode to the given text, or
bytes that raise UnicodeDecodeError (a ValueError) on decode. -/
inductive DgramData where
  | text (s : String)
  | undecodable
deriving DecidableEq, Repr

/-- The header-line parsing done in datagram_received: each line is
x.split(':', 1), and the resulting dict key is lower-cased.  A header
line without a colon raises IndexError at the x[1] access. -/
def parseHeaderLine (x : String) : Except PyError (String × String) :=
  match pySplitOn x ":" with
  | [_] => .error .indexError
  | a :: rest => .ok (pyLower a, String.intercalate ":" rest)
  | [] => .error .indexError

/-- SSDPServer.datagram_received.  Undecodable data raises a ValueError
subclass which the source catches (return); an empty header block is
dropped.  The request line is split on spaces; cmd[1] is accessed by the
logging call whenever cmd[0] is not NOTIFY, by the M-SEARCH test, and by
the NOTIFY test, so a request line with fewer than two tokens raises
IndexError.  Recognized M-SEARCH * requests go to discovery_request;
everything else is dropped after logging. -/
def datagram_received (s : State) (rng : Nat → Nat) (data : DgramData)
    (host : IPv4) (port : Nat) (date : String) : Except PyError (List Ev) :=
  match data with
  | .undecodable => .ok []
  | .text txt =>
    let header := (pySplitOn txt "\r\n\r\n").headD ""
    if header.length = 0 then .ok []
    else
      let lines := pySplitOn header "\r\n"
      let cmd := pySplitOn (lines.headD "") " "
      let hlines := ((lines.drop 1).map (fun x => pyReplaceFirst x ": " ":")).filter
        (fun x => x.length > 0)
      match hlines.mapM parseHeaderLine with
      | .error e => .error e
      | .ok pairs =>
        let headers := pyDict pairs
        if cmd.headD "" = "M-SEARCH" then
          match pyIndex cmd 1 with
          | .error e => .error e
          | .ok c1 =>
            if c1 = "*" then discovery_request s rng headers host port date
            else .ok []
        else if cmd.headD "" = "NOTIFY" then
          match pyIndex cmd 1 with
          | .error e => .error e
          | .ok _ => .ok []
        else
          match pyIndex cmd 1 with
          | .error e => .error e
          | .ok _ => .ok []

/-- The NOTIFY message lines shared by alive and byebye: the record dict
is copied, NT is appended with the ST value and the ST key is removed, so
the field order is USN, LOCATION, EXT, SERVER, CACHE-CONTROL, NT. -/
def notifyLines (nts : String) (r : Record) : List String :=
  ["NOTIFY * HTTP/1.1",
   "HOST: 239.255.255.250:1900",
   "NTS: " ++ nts,
   "USN: " ++ r.usn,
   "LOCATION: " ++ r.location,
   "EXT: " ++ r.ext,
   "SERVER: " ++ r.server,
   "CACHE-CONTROL: " ++ r.cache_control,
   "NT: " ++ r.st,
   "", ""]

/-- The joined byebye response for one record. -/
def byebyeMsg (r : Record) : String := crlfJoin (notifyLines "ssdp:byebye" r)

/-- The joined alive response for one record. -/
def aliveMsg (r : Record) : String := crlfJoin (notifyLines "ssdp:alive" r)

/-- SSDPServer.do_notify: nothing for an unknown usn, otherwise the alive
response is handed to send_it twice. -/
def do_notify (s : State) (usn : String) : List Ev :=
  match alGet? s.known usn with
  | none => []
  | some r => [Ev.sendIt (aliveMsg r) mcastDest, Ev.sendIt (aliveMsg r) mcastDest]

/-- SSDPServer.do_byebye: nothing when sending_byebye is off; a KeyError
from the registry lookup is caught and logged; the byebye response is
handed to send_it once, and only when self.sock is still open. -/
def do_byebye (s : State) (usn : String) : List Ev :=
  if s.sending_byebye = false then []
  else
    match alGet? s.known usn with
    | none => []
    | some r => if s.hasSock then [Ev.sendIt (byebyeMsg r) mcastDest] else []

/-- SSDPServer.shutdown: one do_byebye per key of known, then every key
is unregistered. -/
def shutdown (s : State) : Except PyError (State × List Ev) :=
  let evs := (s.known.map Prod.fst).flatMap (fun u => do_byebye s u)
  match (s.known.map Prod.fst).foldlM (fun m u => alDel m u) s.known with
  | .error e => .error e
  | .ok m => .ok ({ s with known := m }, evs)

/-- The tail of SSDPServer.run after the receive loop exits: shutdown,
then the multicast membership of every interface is dropped and the
receive socket is closed. -/
def teardown (s : State) : Except PyError (State × List Ev) :=
  match shutdown s with
  | .error e => .error e
  | .ok (s1, evs) =>
    .ok ({ s1 with hasSock := false },
      evs ++ s1.ip_list.map (fun p => Ev.dropMembership p.1) ++ [Ev.closeSock])

/-- SSDPServer.stop: nothing when not running; otherwise running is
cleared, a wake datagram is sent, sending_byebye is set to the byebye
argument, and the join on the receive thread runs the loop teardown. -/
def stop (s : State) (byebye : Bool) : Except PyError (State × List Ev) :=
  if s.running then
    match teardown { s with running := false, sending_byebye := byebye } with
    | .error e => .error e
    | .ok (s2, evs) => .ok (s2, Ev.wake :: evs)
  else .ok (s, [])

end SSDP

namespace Svc

/-- The two engine topics Service.notify publishes. -/
inductive Topic where
  | ssdp_notify
  | ssdp_update_ip
deriving DecidableEq, Repr

/-- Service.notify (DLNA/server.py): the tick body of the cherrypy
Monitor.  The counter is incremented; when the ip changed or the counter
reached 10 the counter is reset and ssdp_update_ip is published; then
ssdp_notify is published unconditionally.  Returns the new counter and
the topics published this tick, in publish order. -/
def notify (counter : Nat) (ip_changed : Bool) : Nat × List Topic :=
  let c := counter + 1
  if ip_changed || c == 10 then (0, [Topic.ssdp_update_ip, Topic.ssdp_notify])
  else (c, [Topic.ssdp_notify])

/-- n consecutive scheduler ticks with is_ip_changed() false, starting
from the given counter: final counter and the per-tick topic lists. -/
def runTicks : Nat → Nat → Nat × List (List Topic)
  | c, 0 => (c, [])
  | c, n + 1 =>
    let (c1, t) := notify c false
    let (c2, ts) := runTicks c1 n
    (c2, t :: ts)

end Svc

namespace AutoPort

/-- The outcome the environment gives one bind attempt on a requested
port: the bound port on success, or a portend.Timeout. -/
inductive BindOutcome where
  | ok (bound : Nat)
  | timeout
deriving DecidableEq, Repr

/-- The auto_change_port wrapper around AutoPortServer.start.  The inner
start binds the current bind_addr port; on portend.Timeout the wrapper
re-raises when that port was already 0, and otherwise sets bind_addr to
port 0 and calls the wrapped start once more.  The recursion of the
source is bounded because the retry always requests port 0, and is made
structural here on a fuel argument; fuel 2 covers every reachable call.
Returns the result and the list of ports attempted, in order. -/
def startAux (env : Nat → BindOutcome) : Nat → Nat → Except PyError Nat × List Nat
  | 0, _ => (.error .recursionError, [])
  | fuel + 1, port =>
    match env port with
    | .ok b => (.ok b, [port])
    | .timeout =>
      if port = 0 then (.error .portendTimeout, [port])
      else
        let (r, att) := startAux env fuel 0
        (r, port :: att)

/-- AutoPortServer.start on a configured port. -/
def start (env : Nat → BindOutcome) (port : Nat) : Except PyError Nat × List Nat :=
  startAux env 2 port

end AutoPort

namespace Plugin

/-- One renderer instance: an identity for its bound methods and the
capability names its methods() reflection reports (the callable
set_media_* attributes). -/
structure Renderer where
  rid : Nat
  methods : List String
deriving DecidableEq, Repr

/-- A handler subscribed on the cherrypy bus: a bound method of the
renderer instance (identified by the renderer identity and the method
name, matching Python bound-method equality), or a bound method of the
plugin itself. -/
inductive Handler where
  | rmethod (rid : Nat) (name : String)
  | pmethod (name : String)
deriving DecidableEq, Repr

/-- The bus listener table: (channel, handler) pairs.  cherrypy keeps a
set per channel, so subscribe is insert-if-absent and unsubscribe
discards the pair. -/
abbrev Bus : Type := List (String × Handler)

/-- bus.subscribe(channel, handler). -/
def subscribe (b : Bus) (t : String) (h : Handler) : Bus :=
  if (List.contains b (t, h)) then b else List.append b [(t, h)]

/-- bus.unsubscribe(channel, handler). -/
def unsubscribe (b : Bus) (t : String) (h : Handler) : Bus :=
  List.filter (fun p => p ≠ (t, h)) b

/-- The handlers bus.publish(topic) dispatches to. -/
def dispatch (b : Bus) (t : String) : List Handler :=
  List.map Prod.snd (List.filter (fun p => p.1 == t) b)

/-- The subscriptions RendererPlugin.start makes for a renderer, in
source order: the three fixed control topics, then one subscription per
discovered capability method. -/
def startSubs (r : Renderer) : List (String × Handler) :=
  [("reload_renderer", Handler.rmethod r.rid "reload"),
   ("get_renderer", Handler.pmethod "get_renderer"),
   ("set_renderer", Handler.pmethod "set_renderer")] ++
  r.methods.map (fun m => (m, Handler.rmethod r.rid m))

/-- The RendererPlugin state: the bus it is attached to and the current
renderer. -/
structure PState where
  bus : Bus
  renderer : Renderer
deriving DecidableEq

/-- Observable plugin actions: renderer start/stop calls and the bus
subscribe/unsubscribe calls, in program order. -/
inductive PEv where
  | rstart (rid : Nat)
  | rstop (rid : Nat)
  | sub (t : String) (h : Handler)
  | unsub (t : String) (h : Handler)
deriving DecidableEq, Repr

/-- RendererPlugin.start: the renderer is started first, then the control
topics and the discovered capability methods are subscribed. -/
def start (s : PState) : PState × List PEv :=
  ({ s with bus := (startSubs s.renderer).foldl (fun b p => subscribe b p.1 p.2) s.bus },
   PEv.rstart s.renderer.rid :: (startSubs s.renderer).map (fun p => PEv.sub p.1 p.2))

/-- RendererPlugin.stop: the control topics and the discovered capability
methods are unsubscribed first, then the renderer is stopped. -/
def stop (s : PState) : PState × List PEv :=
  ({ s with bus := (startSubs s.renderer).foldl (fun b p => unsubscribe b p.1 p.2) s.bus },
   (startSubs s.renderer).map (fun p => PEv.unsub p.1 p.2) ++ [PEv.rstop s.renderer.rid])

/-- RendererPlugin.set_renderer: stop the current renderer, assign the
new one, start it. -/
def set_renderer (s : PState) (new : Renderer) : PState × List PEv :=
  let (s1, t1) := stop s
  let s2 := { s1 with renderer := new }
  let (s3, t3) := start s2
  (s3, t1 ++ t3)

end Plugin

namespace SSDP

/-- The per-record contribution of discovery_request, used to state the
characterization lemmas: a matching record with a truthy USN yields one
reply through the first subnet-matching interface, otherwise nothing. -/
def replyOpt (ipl : List (IPv4 × IPv4)) (host : IPv4) (port : Nat) (date : String)
    (target : String) (r : Record) : List Ev :=
  if recordMatches target r then
    if r.usn ≠ "" then
      match firstMatchingIface ipl host with
      | some ip => [Ev.sockSendTo (mkReplyData r ip date) (host, port)]
      | none => []
    else []
  else []

end SSDP

/-- The registry record of the worked scenario in the specification:
usn uuid:ABC::upnp:rootdevice, st upnp:rootdevice, a location template
with one host placeholder. -/
def demoRecord : SSDP.Record :=
  ⟨"uuid:ABC::upnp:rootdevice", "http://\x7b\x7d:80/d.xml", "upnp:rootdevice", "",
   "srv", "max-age=1800"⟩

/-- An engine state holding the scenario record, with one interface
192.168.1.10/255.255.255.0. -/
def demoState : SSDP.State :=
  { known := [("uuid:ABC::upnp:rootdevice", demoRecord)],
    ip_list := [(⟨192, 168, 1, 10⟩, ⟨255, 255, 255, 0⟩)],
    running := true, sending_byebye := true, hasSock := true }

/-- A registry record with service type stX and a truthy USN. -/
def cexRecord : SSDP.Record :=
  ⟨"uuid:X", "http://\x7b\x7d/d.xml", "stX", "", "srv", "max-age=1800"⟩

/-- A running engine that knows cexRecord but has an empty interface
list, so no interface can match any requester subnet. -/
def noIfaceState : SSDP.State :=
  { known := [("uuid:X", cexRecord)], ip_list := [],
    running := true, sending_byebye := true, hasSock := true }

/-- A running engine with a record registered under the empty USN and an
interface on the requester subnet. -/
def emptyUsnState : SSDP.State :=
  { known := [("", ⟨"", "http://\x7b\x7d/d.xml", "stX", "", "srv", "max-age=1800"⟩)],
    ip_list := [(⟨10, 0, 0, 2⟩, ⟨255, 0, 0, 0⟩)],
    running := true, sending_byebye := true, hasSock := true }

/-- An engine that is not running but still holds a record. -/
def stoppedState : SSDP.State :=
  { known := [("uuid:X", cexRecord)], ip_list := [],
    running := false, sending_byebye := true, hasSock := false }

/-! ## Theorems -/

/-- The fuel given to the auto_change_port recursion is irrelevant beyond
2: the retry always requests port 0 and the port-0 branch never recurses,
so the source's recursion is bounded and fuel 2 is exact. -/
theorem startAux_fuel_irrelevant (env : Nat → AutoPort.BindOutcome) :
    ∀ (fuel p : Nat), AutoPort.startAux env (fuel + 2) p = AutoPort.startAux env 2 p := by
  intro fuel p
  show AutoPort.startAux env (fuel + 1 + 1) p = AutoPort.startAux env 2 p
  unfold AutoPort.startAux
  cases env p with
  | ok b => rfl
  | timeout =>
    by_cases hp : p = 0
    · simp [hp]
    · simp only [hp, if_false]
      unfold AutoPort.startAux
      cases env 0 with
      | ok b => rfl
      | timeout => rfl

/-- C7: starting from the freshly initialised counter 0, n scheduler
ticks with is_ip_changed() false increment the counter once per tick and
publish only ssdp_notify for every n below 10; the 10th tick additionally
publishes exactly one ssdp_update_ip and resets the counter to 0. -/
theorem C7_scheduler_update_at_tenth_tick :
    (∀ n, n < 10 →
      Svc.runTicks 0 n = (n, List.replicate n [Svc.Topic.ssdp_notify])) ∧
    Svc.runTicks 0 10 =
      (0, List.replicate 9 [Svc.Topic.ssdp_notify] ++
        [[Svc.Topic.ssdp_update_ip, Svc.Topic.ssdp_notify]]) := by
  constructor
  · decide
  · decide

/-- Witness for C7 at four ticks. -/
theorem C7_witness :
    Svc.runTicks 0 4 = (4, List.replicate 4 [Svc.Topic.ssdp_notify]) :=
  C7_scheduler_update_at_tenth_tick.1 4 (by decide)

/-- C8: when the environment binds the attempted port the binder stops
after one attempt; when the attempted non-zero port times out the binder
rebinds exactly once to port 0 (the attempt list is [p, 0], the original
port appearing exactly once, and the outcome is whatever port 0 gives,
a timeout there being propagated); a timeout on an attempted port 0 is
propagated with no further attempt. -/
theorem C8_port_fallback :
    ∀ (env : Nat → AutoPort.BindOutcome) (p : Nat),
      (∀ b, env p = .ok b → AutoPort.start env p = (.ok b, [p])) ∧
      (env p = .timeout → p ≠ 0 →
        AutoPort.start env p =
          ((match env 0 with
            | .ok b => Except.ok b
            | .timeout => Except.error PyError.portendTimeout), [p, 0]) ∧
        List.count p [p, 0] = 1) ∧
      (p = 0 → env 0 = .timeout →
        AutoPort.start env p = (.error .portendTimeout, [0])) := by
  intro env p
  refine ⟨?_, ?_, ?_⟩
  · intro b hb
    simp [AutoPort.start, AutoPort.startAux, hb]
  · intro ht hp
    constructor
    · simp only [AutoPort.start, AutoPort.startAux, ht, hp, if_false]
      cases h0 : env 0 with
      | ok b => rfl
      | timeout => rfl
    · simp [List.count_cons, hp, Ne.symm hp]
  · intro hp h0
    subst hp
    simp [AutoPort.start, AutoPort.startAux, h0]

/-- Witness for C8: port 8080 already bound elsewhere, the OS would
assign 5555 for a port-0 request. -/
theorem C8_witness :
    AutoPort.start
        (fun q => if q = 8080 then AutoPort.BindOutcome.timeout else .ok 5555) 8080 =
      (.ok 5555, [8080, 0]) ∧
    List.count 8080 [8080, 0] = 1 := by
  have h := (C8_port_fallback
    (fun q => if q = 8080 then AutoPort.BindOutcome.timeout else .ok 5555) 8080).2.1
    (by decide) (by decide)
  exact ⟨h.1, h.2⟩

/-- C4 (amended): undecodable datagrams, empty datagrams and unrecognized
two-token request lines are dropped without an exception, but a decodable
request line with fewer than two tokens raises IndexError out of
datagram_received (whether or not the command is NOTIFY), and an M-SEARCH
whose MX header is not numeric raises ValueError — these escape the
receive loop, which catches only socket.timeout. -/
theorem C4_malformed_datagram_handling :
    ∀ (s : SSDP.State) (rng : Nat → Nat) (host : IPv4) (port : Nat) (date : String),
      SSDP.datagram_received s rng .undecodable host port date = .ok [] ∧
      SSDP.datagram_received s rng (.text "") host port date = .ok [] ∧
      SSDP.datagram_received s rng (.text "FOO BAR HTTP/1.1\r\n\r\n") host port date
        = .ok [] ∧
      SSDP.datagram_received s rng (.text "HELLO\r\n\r\n") host port date
        = .error .indexError ∧
      SSDP.datagram_received s rng (.text "NOTIFY\r\n\r\n") host port date
        = .error .indexError ∧
      SSDP.datagram_received s rng (.text "M-SEARCH * HTTP/1.1\r\nMX: abc\r\n\r\n")
        host port date = .error .valueError := by
  intro s rng host port date
  exact ⟨rfl, rfl, rfl, rfl, rfl, rfl⟩

/-- Counterexample for C4 as stated: a concrete malformed datagram whose
request line has a single token makes datagram_received raise IndexError
instead of being dropped silently. -/
theorem C4_counterexample :
    SSDP.datagram_received noIfaceState (fun _ => 0) (.text "HELLO\r\n\r\n")
      ⟨10, 0, 0, 1⟩ 50000 "D" = .error .indexError := rfl

/-- Unfolding of the dict lookup on a cons cell. -/
theorem alGet?_cons {α : Type} (p : String × α) (rest : List (String × α)) (v : String) :
    alGet? (p :: rest) v = if p.1 = v then some p.2 else alGet? rest v := by
  by_cases hv : p.1 = v
  · unfold alGet?
    rw [List.find?_cons_of_pos _ (by simpa using hv)]
    simp [hv]
  · unfold alGet?
    rw [List.find?_cons_of_neg _ (by simpa using hv)]
    simp [hv]

/-- Lookups of other keys are unaffected by removing every pair keyed u. -/
theorem alGet?_filter_ne {α : Type} (u v : String) (h : v ≠ u) :
    ∀ (m : List (String × α)), alGet? (m.filter (fun p => p.1 != u)) v = alGet? m v := by
  intro m
  induction m with
  | nil => rfl
  | cons p rest ih =>
    rw [List.filter_cons]
    by_cases hu : p.1 = u
    · have hb : (p.1 != u) = false := by simp [hu]
      rw [hb]
      simp only [Bool.false_eq_true, if_false]
      rw [ih, alGet?_cons]
      have hpv : ¬p.1 = v := by
        intro hpv
        exact h (by rw [← hpv, hu])
      simp [hpv]
    · have hb : (p.1 != u) = true := by simp [hu]
      rw [hb]
      simp only [if_true]
      rw [alGet?_cons, alGet?_cons, ih]

/-- C6 (amended): unregister(usn) on a present USN removes that entry
(the USN is no longer known, all other lookups are unchanged); on an
absent USN it raises KeyError rather than being a logged no-op. -/
theorem C6_unregister_behaviour :
    ∀ (s : SSDP.State) (usn : String),
      (SSDP.is_known s usn = true →
        SSDP.unregister s usn =
          .ok { s with known := s.known.filter (fun p => p.1 != usn) } ∧
        SSDP.is_known { s with known := s.known.filter (fun p => p.1 != usn) } usn
          = false ∧
        ∀ v, v ≠ usn →
          alGet? (s.known.filter (fun p => p.1 != usn)) v = alGet? s.known v) ∧
      (SSDP.is_known s usn = false → SSDP.unregister s usn = .error .keyError) := by
  intro s usn
  constructor
  · intro hk
    refine ⟨?_, ?_, ?_⟩
    · simp only [SSDP.unregister, alDel, SSDP.is_known] at *
      simp [hk]
    · simp only [SSDP.is_known, List.any_eq_false]
      intro p hp
      rw [List.mem_filter] at hp
      have h2 : p.1 ≠ usn := by simpa using hp.2
      simpa using h2
    · intro v hv
      exact alGet?_filter_ne usn v hv s.known
  · intro hk
    simp only [SSDP.unregister, alDel, SSDP.is_known] at *
    simp [hk]

/-- Witness for C6 at a concrete one-record registry. -/
theorem C6_witness :
    SSDP.unregister noIfaceState "uuid:X" =
      .ok { noIfaceState with
              known := noIfaceState.known.filter (fun p => p.1 != "uuid:X") } ∧
    SSDP.is_known { noIfaceState with
              known := noIfaceState.known.filter (fun p => p.1 != "uuid:X") } "uuid:X"
      = false := by
  have h := (C6_unregister_behaviour noIfaceState "uuid:X").1 (by decide)
  exact ⟨h.1, h.2.1⟩

/-- Counterexample for C6 as stated: unregister of an unknown USN raises
KeyError instead of leaving the registry unchanged as a logged no-op. -/
theorem C6_counterexample :
    SSDP.unregister stoppedState "nope" = .error .keyError := rfl

/-- Characterization of the discovery loop when MX is non-negative: it
succeeds and contributes replyOpt per record, in registry order. -/
theorem drLoop_eq_flatMap (ipl : List (IPv4 × IPv4)) (host : IPv4) (port : Nat)
    (date target : String) (mxv : Int) (rng : Nat → Nat) (h : 0 ≤ mxv) :
    ∀ (recs : List SSDP.Record) (k : Nat),
      SSDP.drLoop ipl host port date target mxv rng recs k =
        .ok (recs.flatMap (SSDP.replyOpt ipl host port date target)) := by
  intro recs
  induction recs with
  | nil => intro k; rfl
  | cons r rest ih =>
    intro k
    have hr : pyRandint 0 mxv (rng k) =
        .ok (0 + Int.ofNat ((rng k) % (mxv - 0 + 1).toNat)) := by
      unfold pyRandint
      rw [if_neg (by omega)]
    by_cases hm : SSDP.recordMatches target r
    · by_cases hu : r.usn = ""
      · simp [SSDP.drLoop, SSDP.replyOpt, hm, hu, ih k]
      · simp [SSDP.drLoop, SSDP.replyOpt, hm, hu, hr, ih (k + 1)]
    · simp [SSDP.drLoop, SSDP.replyOpt, hm, ih k]

/-- When some interface matches the requester subnet and every matching
record has a truthy USN, the per-record contributions are exactly one
reply per matching record. -/
theorem flatMap_replyOpt_of_iface (ipl : List (IPv4 × IPv4)) (host : IPv4) (port : Nat)
    (date target : String) (ip : IPv4)
    (hif : SSDP.firstMatchingIface ipl host = some ip) :
    ∀ (recs : List SSDP.Record),
      (∀ r ∈ recs, SSDP.recordMatches target r = true → r.usn ≠ "") →
      recs.flatMap (SSDP.replyOpt ipl host port date target) =
        (recs.filter (SSDP.recordMatches target)).map
          (fun r => SSDP.Ev.sockSendTo (SSDP.mkReplyData r ip date) (host, port)) := by
  intro recs
  induction recs with
  | nil => intro _; rfl
  | cons r rest ih =>
    intro hall
    have hrest : ∀ x ∈ rest, SSDP.recordMatches target x = true → x.usn ≠ "" :=
      fun x hx => hall x (List.mem_cons_of_mem _ hx)
    rw [List.flatMap_cons, ih hrest, List.filter_cons]
    by_cases hm : SSDP.recordMatches target r
    · have hu := hall r (List.mem_cons_self r rest) hm
      simp [SSDP.replyOpt, hm, hu, hif]
    · simp [SSDP.replyOpt, hm]

/-- The discovery loop result does not depend on the random draws at all:
the drawn delay is bound and then discarded. -/
theorem drLoop_rng_irrelevant (ipl : List (IPv4 × IPv4)) (host : IPv4) (port : Nat)
    (date target : String) (mxv : Int) :
    ∀ (recs : List SSDP.Record) (rng rng' : Nat → Nat) (k k' : Nat),
      SSDP.drLoop ipl host port date target mxv rng recs k =
        SSDP.drLoop ipl host port date target mxv rng' recs k' := by
  intro recs
  induction recs with
  | nil => intros; rfl
  | cons r rest ih =>
    intro rng rng' k k'
    by_cases hm : SSDP.recordMatches target r
    · by_cases hu : r.usn = ""
      · simpa [SSDP.drLoop, hm, hu] using ih rng rng' k k'
      · by_cases hmx : mxv < 0
        · simp [SSDP.drLoop, hm, hu, pyRandint, hmx]
        · simp [SSDP.drLoop, hm, hu, pyRandint, hmx, ih rng rng' (k + 1) (k' + 1)]
    · simpa [SSDP.drLoop, hm] using ih rng rng' k k'

/-- The discovery loop never emits a sleep event. -/
theorem drLoop_no_sleep (ipl : List (IPv4 × IPv4)) (host : IPv4) (port : Nat)
    (date target : String) (mxv : Int) (rng : Nat → Nat) :
    ∀ (recs : List SSDP.Record) (k : Nat) (evs : List SSDP.Ev),
      SSDP.drLoop ipl host port date target mxv rng recs k = .ok evs →
      evs.all (fun e => !SSDP.Ev.isSleep e) = true := by
  intro recs
  induction recs with
  | nil =>
    intro k evs h
    simp only [SSDP.drLoop] at h
    cases h
    rfl
  | cons r rest ih =>
    intro k evs h
    by_cases hm : SSDP.recordMatches target r
    · by_cases hu : r.usn = ""
      · exact ih k evs (by simpa [SSDP.drLoop, hm, hu] using h)
      · cases hrand : pyRandint 0 mxv (rng k) with
        | error e => simp [SSDP.drLoop, hm, hu, hrand] at h
        | ok d =>
          cases hrec : SSDP.drLoop ipl host port date target mxv rng rest (k + 1) with
          | error e => simp [SSDP.drLoop, hm, hu, hrand, hrec] at h
          | ok more =>
            have hmore := ih (k + 1) more hrec
            simp only [SSDP.drLoop, hm, hu, hrand, hrec, if_true, ne_eq,
              not_false_eq_true, if_pos] at h
            cases hfi : SSDP.firstMatchingIface ipl host with
            | some ip =>
              rw [hfi] at h
              cases h
              simpa [List.all_append, SSDP.Ev.isSleep] using hmore
            | none =>
              rw [hfi] at h
              cases h
              simpa using hmore
    · exact ih k evs (by simpa [SSDP.drLoop, hm] using h)

/-- C1 (amended): when the MX header parses to a non-negative value, some
local interface lies on the requester's subnet, and every matching record
has a non-empty USN, a discovery request produces exactly one unicast
reply per matching record (in registry order), each addressed to the
requester's (host, port) and each being the serialization of a registry
record, hence citing that record's USN; a request matching no record
yields the empty reply list. -/
theorem C1_one_reply_per_matching_record :
    ∀ (s : SSDP.State) (rng : Nat → Nat) (headers : List (String × String))
      (host : IPv4) (port : Nat) (date : String) (mxv : Int) (ip : IPv4),
      pyInt (alGetD headers "mx" "3") = .ok mxv →
      0 ≤ mxv →
      SSDP.firstMatchingIface s.ip_list host = some ip →
      (∀ p ∈ s.known,
        SSDP.recordMatches (alGetD headers "st" "ssdp:all") p.2 = true → p.2.usn ≠ "") →
      SSDP.discovery_request s rng headers host port date =
        .ok (((s.known.map Prod.snd).filter
            (SSDP.recordMatches (alGetD headers "st" "ssdp:all"))).map
          (fun r => SSDP.Ev.sockSendTo (SSDP.mkReplyData r ip date) (host, port))) := by
  intro s rng headers host port date mxv ip hmx h0 hif husn
  simp only [SSDP.discovery_request, hmx]
  rw [drLoop_eq_flatMap s.ip_list host port date _ mxv rng h0]
  rw [flatMap_replyOpt_of_iface s.ip_list host port date _ ip hif]
  intro r hr hm
  rcases List.mem_map.mp hr with ⟨p, hp, rfl⟩
  exact husn p hp hm

/-- Witness for C1 at the specification's worked scenario. -/
theorem C1_witness :
    SSDP.discovery_request demoState (fun _ => 0)
        [("st", "upnp:rootdevice"), ("mx", "1")] ⟨192, 168, 1, 50⟩ 51000 "D" =
      .ok [SSDP.Ev.sockSendTo (SSDP.mkReplyData demoRecord ⟨192, 168, 1, 10⟩ "D")
        (⟨192, 168, 1, 50⟩, 51000)] := by
  have h := C1_one_reply_per_matching_record demoState (fun _ => 0)
    [("st", "upnp:rootdevice"), ("mx", "1")] ⟨192, 168, 1, 50⟩ 51000 "D" 1
    ⟨192, 168, 1, 10⟩ rfl (by decide) (by decide) (by decide)
  exact h

/-- Counterexample for C1 as stated: a record matching the requested ST
with no subnet-matching interface yields zero replies rather than exactly
one, and likewise for a matching record whose USN is the empty string. -/
theorem C1_counterexample :
    (noIfaceState.known.map Prod.snd).filter (SSDP.recordMatches "stX") ≠ [] ∧
    SSDP.discovery_request noIfaceState (fun _ => 0) [("st", "stX")]
      ⟨10, 0, 0, 1⟩ 50000 "D" = .ok [] ∧
    (emptyUsnState.known.map Prod.snd).filter (SSDP.recordMatches "stX") ≠ [] ∧
    SSDP.discovery_request emptyUsnState (fun _ => 0) [("st", "stX")]
      ⟨10, 0, 0, 1⟩ 50000 "D" = .ok [] := by
  exact ⟨by decide, rfl, by decide, rfl⟩

/-- C2: the interface selection of discovery_request picks an interface
of ip_list whose masked address (interface ip AND its mask) equals the
requester's address masked with that same mask; no interface qualifies
exactly when every interface fails that test, in which case the request
yields no reply at all; and when an interface ip is selected every reply
sent is the record serialization with that interface ip substituted into
the placeholder. -/
theorem C2_subnet_interface_selection :
    (∀ (ipl : List (IPv4 × IPv4)) (host ip : IPv4),
      SSDP.firstMatchingIface ipl host = some ip →
      ∃ mask, (ip, mask) ∈ ipl ∧
        SSDP.get_subnet_ip ip mask = SSDP.get_subnet_ip host mask) ∧
    (∀ (ipl : List (IPv4 × IPv4)) (host : IPv4),
      SSDP.firstMatchingIface ipl host = none ↔
        ∀ p ∈ ipl, SSDP.get_subnet_ip p.1 p.2 ≠ SSDP.get_subnet_ip host p.2) ∧
    (∀ (s : SSDP.State) (rng : Nat → Nat) (headers : List (String × String))
       (host : IPv4) (port : Nat) (date : String) (mxv : Int),
      pyInt (alGetD headers "mx" "3") = .ok mxv → 0 ≤ mxv →
      SSDP.firstMatchingIface s.ip_list host = none →
      SSDP.discovery_request s rng headers host port date = .ok []) ∧
    (∀ (s : SSDP.State) (rng : Nat → Nat) (headers : List (String × String))
       (host : IPv4) (port : Nat) (date : String) (mxv : Int) (ip : IPv4)
       (evs : List SSDP.Ev),
      pyInt (alGetD headers "mx" "3") = .ok mxv → 0 ≤ mxv →
      SSDP.firstMatchingIface s.ip_list host = some ip →
      SSDP.discovery_request s rng headers host port date = .ok evs →
      ∀ e ∈ evs, ∃ r, (∃ u, (u, r) ∈ s.known) ∧
        SSDP.recordMatches (alGetD headers "st" "ssdp:all") r = true ∧ r.usn ≠ "" ∧
        e = SSDP.Ev.sockSendTo (SSDP.mkReplyData r ip date) (host, port)) := by
  refine ⟨?_, ?_, ?_, ?_⟩
  · intro ipl host ip h
    induction ipl with
    | nil => cases h
    | cons q rest ih =>
      by_cases hq : SSDP.get_subnet_ip q.1 q.2 = SSDP.get_subnet_ip host q.2
      · have : some q.1 = some ip := by
          rw [← h]
          simp [SSDP.firstMatchingIface, hq]
        cases this
        exact ⟨q.2, List.mem_cons_self q rest, hq⟩
      · have h' : SSDP.firstMatchingIface rest host = some ip := by
          rw [← h]
          simp [SSDP.firstMatchingIface, hq]
        rcases ih h' with ⟨mask, hmem, hmask⟩
        exact ⟨mask, List.mem_cons_of_mem q hmem, hmask⟩
  · intro ipl host
    induction ipl with
    | nil => simp [SSDP.firstMatchingIface]
    | cons q rest ih =>
      by_cases hq : SSDP.get_subnet_ip q.1 q.2 = SSDP.get_subnet_ip host q.2
      · simp [SSDP.firstMatchingIface, hq]
      · simp [SSDP.firstMatchingIface, hq, ih]
  · intro s rng headers host port date mxv hmx h0 hif
    simp only [SSDP.discovery_request, hmx]
    rw [drLoop_eq_flatMap s.ip_list host port date _ mxv rng h0]
    congr 1
    rw [List.flatMap_eq_nil_iff]
    intro r _
    unfold SSDP.replyOpt
    rw [hif]
    by_cases hm : SSDP.recordMatches (alGetD headers "st" "ssdp:all") r
    · by_cases hu : r.usn = "" <;> simp [hm, hu]
    · simp [hm]
  · intro s rng headers host port date mxv ip evs hmx h0 hif hres e he
    simp only [SSDP.discovery_request, hmx] at hres
    rw [drLoop_eq_flatMap s.ip_list host port date _ mxv rng h0] at hres
    cases hres
    rcases List.mem_flatMap.mp he with ⟨r, hr, her⟩
    rcases List.mem_map.mp hr with ⟨p, hp, rfl⟩
    unfold SSDP.replyOpt at her
    rw [hif] at her
    by_cases hm : SSDP.recordMatches (alGetD headers "st" "ssdp:all") p.2
    · by_cases hu : p.2.usn = ""
      · simp [hm, hu] at her
      · rw [if_pos hm, if_pos hu] at her
        rcases List.mem_singleton.mp her with rfl
        exact ⟨p.2, ⟨p.1, hp⟩, hm, hu, rfl⟩
    · simp [hm] at her

/-- Witness for C2: with the single interface off the requester's subnet
the request yields no reply. -/
theorem C2_witness :
    SSDP.discovery_request
        { noIfaceState with ip_list := [(⟨10, 0, 0, 2⟩, ⟨255, 255, 255, 0⟩)] }
        (fun _ => 0) [("st", "stX")] ⟨192, 168, 1, 50⟩ 50000 "D" = .ok [] :=
  C2_subnet_interface_selection.2.2.1
    { noIfaceState with ip_list := [(⟨10, 0, 0, 2⟩, ⟨255, 255, 255, 0⟩)] }
    (fun _ => 0) [("st", "stX")] ⟨192, 168, 1, 50⟩ 50000 "D" 3
    rfl (by decide) (by decide)

/-- C3 is refuted by the code: the reply is never delayed.  First, the
observable result of discovery_request is completely independent of the
random draw oracle, so the drawn MX-bounded delay influences nothing;
second, no successful discovery trace ever contains a sleep event; third,
at the specification's own scenario with MX 1 the reply datagram is
emitted immediately for every possible random draw. -/
theorem C3_delay_only_computed_never_applied :
    (∀ (s : SSDP.State) (headers : List (String × String)) (host : IPv4)
       (port : Nat) (date : String) (rng rng' : Nat → Nat),
      SSDP.discovery_request s rng headers host port date =
        SSDP.discovery_request s rng' headers host port date) ∧
    (∀ (s : SSDP.State) (rng : Nat → Nat) (headers : List (String × String))
       (host : IPv4) (port : Nat) (date : String),
      ((SSDP.discovery_request s rng headers host port date).toOption.getD []).all
        (fun e => !SSDP.Ev.isSleep e) = true) ∧
    (∀ (rng : Nat → Nat),
      SSDP.discovery_request demoState rng
          [("st", "upnp:rootdevice"), ("mx", "1")] ⟨192, 168, 1, 50⟩ 51000 "D" =
        .ok [SSDP.Ev.sockSendTo (SSDP.mkReplyData demoRecord ⟨192, 168, 1, 10⟩ "D")
          (⟨192, 168, 1, 50⟩, 51000)]) := by
  refine ⟨?_, ?_, ?_⟩
  · intro s headers host port date rng rng'
    unfold SSDP.discovery_request
    cases pyInt (alGetD headers "mx" "3") with
    | error e => rfl
    | ok mxv =>
      exact drLoop_rng_irrelevant s.ip_list host port date _ mxv
        (s.known.map Prod.snd) rng rng' 0 0
  · intro s rng headers host port date
    cases hres : SSDP.discovery_request s rng headers host port date with
    | error e => rfl
    | ok evs =>
      unfold SSDP.discovery_request at hres
      revert hres
      cases pyInt (alGetD headers "mx" "3") with
      | error e => intro hres; cases hres
      | ok mxv =>
        intro hres
        have h := drLoop_no_sleep s.ip_list host port date _ mxv rng
          (s.known.map Prod.snd) 0 evs hres
        simpa using h
  · intro rng
    rfl

/-- C5 helper: pointwise equality of two flatMap arguments on members. -/
theorem flatMap_congr_mem {α β : Type} (l : List α) (f g : α → List β)
    (h : ∀ x ∈ l, f x = g x) : l.flatMap f = l.flatMap g := by
  induction l with
  | nil => rfl
  | cons x rest ih =>
    rw [List.flatMap_cons, List.flatMap_cons, h x (List.mem_cons_self x rest),
      ih (fun y hy => h y (List.mem_cons_of_mem x hy))]

/-- flatMap of singleton contributions is a map. -/
theorem flatMap_singleton_map {α β : Type} (f : α → β) :
    ∀ (l : List α), l.flatMap (fun x => [f x]) = l.map f := by
  intro l
  induction l with
  | nil => rfl
  | cons x rest ih => rw [List.flatMap_cons, List.map_cons, ih]; rfl

/-- Iterating a registry lookup over the registry's own keys visits each
record once, provided the keys are distinct (as dict keys are). -/
theorem keys_flatMap_lookup {α β : Type} (g : α → List β) :
    ∀ (m : List (String × α)), (m.map Prod.fst).Nodup →
      (m.map Prod.fst).flatMap (fun u => (alGet? m u).elim [] g) =
      m.flatMap (fun p => g p.2) := by
  intro m
  induction m with
  | nil => intro _; rfl
  | cons p rest ih =>
    intro hn
    rw [List.map_cons] at hn
    have hp1 : p.1 ∉ rest.map Prod.fst := (List.nodup_cons.mp hn).1
    have hn' : (rest.map Prod.fst).Nodup := (List.nodup_cons.mp hn).2
    rw [List.map_cons, List.flatMap_cons, List.flatMap_cons]
    have h1 : alGet? (p :: rest) p.1 = some p.2 := by
      rw [alGet?_cons]
      simp
    rw [h1]
    congr 1
    have hpt : ∀ u ∈ rest.map Prod.fst,
        (alGet? (p :: rest) u).elim ([] : List β) g =
          (alGet? rest u).elim [] g := by
      intro u hu
      have hne : ¬p.1 = u := fun h => hp1 (h ▸ hu)
      rw [alGet?_cons, if_neg hne]
    rw [flatMap_congr_mem _ _ _ hpt, ih hn']

/-- Deleting every key of a dict with distinct keys empties it without a
KeyError. -/
theorem foldlM_alDel_all {α : Type} :
    ∀ (m : List (String × α)), (m.map Prod.fst).Nodup →
      (m.map Prod.fst).foldlM (fun acc u => alDel acc u) m =
        .ok ([] : List (String × α)) := by
  intro m
  induction m with
  | nil => intro _; rfl
  | cons p rest ih =>
    intro hn
    rw [List.map_cons] at hn
    have hp1 : p.1 ∉ rest.map Prod.fst := (List.nodup_cons.mp hn).1
    have hn' : (rest.map Prod.fst).Nodup := (List.nodup_cons.mp hn).2
    rw [List.map_cons, List.foldlM_cons]
    have h1 : alDel (p :: rest) p.1 = .ok rest := by
      unfold alDel
      rw [if_pos (by simp)]
      congr 1
      rw [List.filter_cons]
      have hf : (p.1 != p.1) = false := by simp
      rw [hf]
      simp only [Bool.false_eq_true, if_false]
      rw [List.filter_eq_self]
      intro q hq
      have hqm : q.1 ∈ rest.map Prod.fst := List.mem_map_of_mem Prod.fst hq
      have : ¬q.1 = p.1 := fun h => hp1 (h ▸ hqm)
      simpa using this
    rw [h1]
    exact ih hn'

/-- SSDPServer.shutdown with distinct registry keys: the registry is
emptied and the trace is the byebye sweep over the keys. -/
theorem shutdown_eq (s : SSDP.State) (hn : (s.known.map Prod.fst).Nodup) :
    SSDP.shutdown s = .ok ({ s with known := [] },
      (s.known.map Prod.fst).flatMap (fun u => SSDP.do_byebye s u)) := by
  unfold SSDP.shutdown
  rw [foldlM_alDel_all s.known hn]

/-- With byebye enabled and the receive socket open, the byebye sweep of
shutdown emits exactly one byebye response per registry entry, in
registry order. -/
theorem byebye_sweep_eq (s : SSDP.State) (hn : (s.known.map Prod.fst).Nodup)
    (hb : s.sending_byebye = true) (hs : s.hasSock = true) :
    (s.known.map Prod.fst).flatMap (fun u => SSDP.do_byebye s u) =
      s.known.map (fun p => SSDP.Ev.sendIt (SSDP.byebyeMsg p.2) SSDP.mcastDest) := by
  have h1 : ∀ u ∈ s.known.map Prod.fst,
      SSDP.do_byebye s u =
        (alGet? s.known u).elim []
          (fun r => [SSDP.Ev.sendIt (SSDP.byebyeMsg r) SSDP.mcastDest]) := by
    intro u _
    unfold SSDP.do_byebye
    rw [hb]
    simp only [Bool.true_eq_false, if_false]
    cases alGet? s.known u with
    | none => rfl
    | some r => simp [hs]
  rw [flatMap_congr_mem _ _ _ h1,
    keys_flatMap_lookup (fun r => [SSDP.Ev.sendIt (SSDP.byebyeMsg r) SSDP.mcastDest])
      s.known hn]
  exact flatMap_singleton_map _ s.known

/-- C5: stopping a running engine with byebye=true emits, before the
membership drops and the socket close, exactly one byebye notification
per USN known at stop time (in registry order, each the NOTIFY response
with NTS ssdp:byebye and NT taken from the record's ST); stopping with
byebye=false emits none — the byebye-enabled flag of that stop cycle
gates the sweep. -/
theorem C5_stop_emits_one_byebye_per_usn :
    ∀ (s : SSDP.State), s.running = true → s.hasSock = true →
      (s.known.map Prod.fst).Nodup →
      SSDP.stop s true =
        .ok ({ s with running := false, sending_byebye := true,
                      known := [], hasSock := false },
          SSDP.Ev.wake ::
            (s.known.map (fun p => SSDP.Ev.sendIt (SSDP.byebyeMsg p.2) SSDP.mcastDest) ++
             s.ip_list.map (fun p => SSDP.Ev.dropMembership p.1) ++
             [SSDP.Ev.closeSock])) ∧
      SSDP.stop s false =
        .ok ({ s with running := false, sending_byebye := false,
                      known := [], hasSock := false },
          SSDP.Ev.wake ::
            ([] ++ s.ip_list.map (fun p => SSDP.Ev.dropMembership p.1) ++
             [SSDP.Ev.closeSock])) := by
  intro s hr hs hn
  constructor
  · unfold SSDP.stop
    rw [hr]
    simp only [if_true]
    unfold SSDP.teardown
    rw [shutdown_eq { s with running := false, sending_byebye := true } hn]
    rw [byebye_sweep_eq { s with running := false, sending_byebye := true } hn rfl hs]
  · unfold SSDP.stop
    rw [hr]
    simp only [if_true]
    unfold SSDP.teardown
    rw [shutdown_eq { s with running := false, sending_byebye := false } hn]
    have hz : (s.known.map Prod.fst).flatMap
        (fun u => SSDP.do_byebye { s with running := false, sending_byebye := false } u)
        = [] := by
      rw [List.flatMap_eq_nil_iff]
      intro u _
      rfl
    rw [hz]

/-- Witness for C5 at the scenario state. -/
theorem C5_witness :
    SSDP.stop demoState true =
      .ok ({ demoState with running := false, sending_byebye := true,
                            known := [], hasSock := false },
        SSDP.Ev.wake ::
          (demoState.known.map
            (fun p => SSDP.Ev.sendIt (SSDP.byebyeMsg p.2) SSDP.mcastDest) ++
           demoState.ip_list.map (fun p => SSDP.Ev.dropMembership p.1) ++
           [SSDP.Ev.closeSock])) :=
  (C5_stop_emits_one_byebye_per_usn demoState rfl rfl (by decide)).1

/-- C10 (amended): stop() on a running engine empties the registry —
every USN known at stop time is unregistered during shutdown, so
is_known is false for every USN afterwards — while stop() on an engine
that is not running returns immediately and leaves the registry exactly
as it was. -/
theorem C10_stop_empties_registry :
    ∀ (s : SSDP.State) (b : Bool),
      (s.running = true → (s.known.map Prod.fst).Nodup →
        (SSDP.stop s b).map (fun p => (p.1.known, p.1.running)) = .ok ([], false) ∧
        ∀ u, (SSDP.stop s b).map (fun p => SSDP.is_known p.1 u) = .ok false) ∧
      (s.running = false → SSDP.stop s b = .ok (s, [])) := by
  intro s b
  constructor
  · intro hr hn
    have hstop : ∃ evs, SSDP.stop s b =
        .ok ({ s with running := false, sending_byebye := b,
                      known := [], hasSock := false }, evs) := by
      unfold SSDP.stop
      rw [hr]
      simp only [if_true]
      unfold SSDP.teardown
      rw [shutdown_eq { s with running := false, sending_byebye := b } hn]
      exact ⟨_, rfl⟩
    rcases hstop with ⟨evs, hstop⟩
    rw [hstop]
    exact ⟨rfl, fun u => rfl⟩
  · intro hr
    unfold SSDP.stop
    rw [hr]
    rfl

/-- Witness for C10: stopping the running scenario engine. -/
theorem C10_witness :
    (SSDP.stop demoState false).map (fun p => (p.1.known, p.1.running)) =
      .ok ([], false) ∧
    (SSDP.stop demoState false).map
      (fun p => SSDP.is_known p.1 "uuid:ABC::upnp:rootdevice") = .ok false := by
  have h := (C10_stop_empties_registry demoState false).1 rfl (by decide)
  exact ⟨h.1, h.2 "uuid:ABC::upnp:rootdevice"⟩

/-- Counterexample for C10 as stated: stop() of a non-running engine
leaves a non-empty registry untouched, so it is not true that after every
stop() the registry is empty. -/
theorem C10_counterexample :
    SSDP.stop stoppedState true = .ok (stoppedState, []) ∧
    stoppedState.known ≠ [] ∧
    SSDP.is_known stoppedState "uuid:X" = true := by
  exact ⟨rfl, by decide, by decide⟩

/-- Membership after one bus subscribe. -/
theorem mem_subscribe (b : Plugin.Bus) (t' : String) (h' : Plugin.Handler)
    (x : String × Plugin.Handler) :
    x ∈ Plugin.subscribe b t' h' ↔ x ∈ b ∨ x = (t', h') := by
  unfold Plugin.subscribe
  by_cases hc : (t', h') ∈ b
  · rw [if_pos (by simpa [List.contains] using hc)]
    constructor
    · exact fun h => Or.inl h
    · rintro (h | rfl)
      · exact h
      · exact hc
  · rw [if_neg (by simpa [List.contains] using hc)]
    simp

/-- Membership after one bus unsubscribe. -/
theorem mem_unsubscribe (b : Plugin.Bus) (t' : String) (h' : Plugin.Handler)
    (x : String × Plugin.Handler) :
    x ∈ Plugin.unsubscribe b t' h' ↔ x ∈ b ∧ x ≠ (t', h') := by
  unfold Plugin.unsubscribe
  rw [List.mem_filter]
  simp

/-- Membership after folding subscribe over a subscription list. -/
theorem mem_foldl_subscribe (ps : List (String × Plugin.Handler)) :
    ∀ (b : Plugin.Bus) (x : String × Plugin.Handler),
      x ∈ ps.foldl (fun acc p => Plugin.subscribe acc p.1 p.2) b ↔ x ∈ b ∨ x ∈ ps := by
  induction ps with
  | nil => intro b x; simp
  | cons p rest ih =>
    intro b x
    rw [List.foldl_cons, ih, mem_subscribe]
    constructor
    · rintro ((h | rfl) | h)
      · exact Or.inl h
      · exact Or.inr (List.mem_cons_self p rest)
      · exact Or.inr (List.mem_cons_of_mem p h)
    · rintro (h | h)
      · exact Or.inl (Or.inl h)
      · rcases List.mem_cons.mp h with rfl | h
        · exact Or.inl (Or.inr rfl)
        · exact Or.inr h

/-- Membership after folding unsubscribe over a subscription list. -/
theorem mem_foldl_unsubscribe (ps : List (String × Plugin.Handler)) :
    ∀ (b : Plugin.Bus) (x : String × Plugin.Handler),
      x ∈ ps.foldl (fun acc p => Plugin.unsubscribe acc p.1 p.2) b ↔
        x ∈ b ∧ x ∉ ps := by
  induction ps with
  | nil => intro b x; simp
  | cons p rest ih =>
    intro b x
    rw [List.foldl_cons, ih, mem_unsubscribe]
    constructor
    · rintro ⟨⟨hb, hne⟩, hrest⟩
      refine ⟨hb, ?_⟩
      intro hmem
      rcases List.mem_cons.mp hmem with rfl | h
      · exact hne rfl
      · exact hrest h
    · rintro ⟨hb, hnot⟩
      exact ⟨⟨hb, fun h => hnot (h ▸ List.mem_cons_self p rest)⟩,
        fun h => hnot (List.mem_cons_of_mem p h)⟩

/-- A handler is dispatched on a topic exactly when the pair is on the
bus. -/
theorem mem_dispatch (b : Plugin.Bus) (t : String) (h : Plugin.Handler) :
    h ∈ Plugin.dispatch b t ↔ (t, h) ∈ b := by
  unfold Plugin.dispatch
  rw [List.mem_map]
  constructor
  · rintro ⟨p, hp, rfl⟩
    rw [List.mem_filter] at hp
    have : p.1 = t := by simpa using hp.2
    rw [← this]
    exact hp.1
  · intro hb
    exact ⟨(t, h), List.mem_filter.mpr ⟨hb, by simp⟩, rfl⟩

/-- C9: starting from a bus holding no renderer-bound handler, after
RendererPlugin.start with the old renderer: (A) stop unsubscribes the
control topics and every discovered capability method before calling the
renderer's own stop; (B) after stop has returned no bus dispatch on any
topic reaches any renderer-bound method; (C) set_renderer(new) performs
the full old-renderer unsubscribe and stop, then starts and subscribes
the new renderer; (D) the renderer-bound subscriptions afterwards are
exactly the new renderer's control subscription and discovered
capability set. -/
theorem C9_renderer_swap_isolation :
    ∀ (b : Plugin.Bus) (old new : Plugin.Renderer),
      (∀ (t : String) (rid : Nat) (m : String),
        (t, Plugin.Handler.rmethod rid m) ∉ b) →
      ((Plugin.stop ((Plugin.start ⟨b, old⟩).1)).2 =
        (Plugin.startSubs old).map (fun p => Plugin.PEv.unsub p.1 p.2) ++
          [Plugin.PEv.rstop old.rid]) ∧
      (∀ (t : String) (rid : Nat) (m : String),
        Plugin.Handler.rmethod rid m ∉
          Plugin.dispatch (Plugin.stop ((Plugin.start ⟨b, old⟩).1)).1.bus t) ∧
      ((Plugin.set_renderer ((Plugin.start ⟨b, old⟩).1) new).2 =
        (Plugin.startSubs old).map (fun p => Plugin.PEv.unsub p.1 p.2) ++
          [Plugin.PEv.rstop old.rid] ++ [Plugin.PEv.rstart new.rid] ++
          (Plugin.startSubs new).map (fun p => Plugin.PEv.sub p.1 p.2)) ∧
      (∀ (t : String) (rid : Nat) (m : String),
        (t, Plugin.Handler.rmethod rid m) ∈
            (Plugin.set_renderer ((Plugin.start ⟨b, old⟩).1) new).1.bus ↔
          (t, Plugin.Handler.rmethod rid m) ∈ Plugin.startSubs new) := by
  intro b old new hb
  have hstop_bus : ∀ (t : String) (rid : Nat) (m : String),
      (t, Plugin.Handler.rmethod rid m) ∉
        (Plugin.stop ((Plugin.start ⟨b, old⟩).1)).1.bus := by
    intro t rid m hmem
    simp only [Plugin.start, Plugin.stop] at hmem
    rw [mem_foldl_unsubscribe] at hmem
    rcases hmem with ⟨h1, h2⟩
    rw [mem_foldl_subscribe] at h1
    rcases h1 with h1 | h1
    · exact hb t rid m h1
    · exact h2 h1
  refine ⟨rfl, ?_, ?_, ?_⟩
  · intro t rid m hmem
    rw [mem_dispatch] at hmem
    exact hstop_bus t rid m hmem
  · simp [Plugin.set_renderer, Plugin.stop, Plugin.start]
  · intro t rid m
    have hbus3 : (Plugin.set_renderer ((Plugin.start ⟨b, old⟩).1) new).1.bus =
        (Plugin.startSubs new).foldl (fun acc p => Plugin.subscribe acc p.1 p.2)
          (Plugin.stop ((Plugin.start ⟨b, old⟩).1)).1.bus := rfl
    rw [hbus3, mem_foldl_subscribe]
    constructor
    · rintro (h | h)
      · exact absurd h (hstop_bus t rid m)
      · exact h
    · exact fun h => Or.inr h

/-- Witness for C9 at concrete renderers. -/
theorem C9_witness :
    ((Plugin.stop ((Plugin.start ⟨[], ⟨1, ["set_media_stop"]⟩⟩).1)).2 =
      (Plugin.startSubs ⟨1, ["set_media_stop"]⟩).map
        (fun p => Plugin.PEv.unsub p.1 p.2) ++ [Plugin.PEv.rstop 1]) ∧
    ((Plugin.set_renderer ((Plugin.start ⟨[], ⟨1, ["set_media_stop"]⟩⟩).1)
        ⟨2, ["set_media_url"]⟩).2 =
      (Plugin.startSubs ⟨1, ["set_media_stop"]⟩).map
        (fun p => Plugin.PEv.unsub p.1 p.2) ++ [Plugin.PEv.rstop 1] ++
        [Plugin.PEv.rstart 2] ++
        (Plugin.startSubs ⟨2, ["set_media_url"]⟩).map
          (fun p => Plugin.PEv.sub p.1 p.2)) := by
  have h := C9_renderer_swap_isolation [] ⟨1, ["set_media_stop"]⟩ ⟨2, ["set_media_url"]⟩
    (by intro t rid m; simp)
  exact ⟨h.1, h.2.2.1⟩
